import Mathlib

/-!
Verification of the message-handling layer of a Matrix chat bot (src/main.py).

The development shallowly embeds the `on_message` handler: its staleness
filter (lines 211-232), its self-message guard (line 235), the dispatch to
the autonomous-chat collaborator and the URL-processing collaborator
(lines 240-308), the response-delivery logic with its threaded-send
fallback (lines 257-273), and the arXiv maintenance loop (lines 374-381).

Time is modelled in integer milliseconds since the epoch, matching the
Matrix `server_timestamp` field. The Python code converts milliseconds to
`datetime` values before comparing; all comparisons it performs are
order-equivalent to comparing the raw millisecond counts, so the embedding
works directly with milliseconds (300 s = 300000 ms, 1 h = 3600000 ms).
A falsy Python timestamp (`None` or `0`) is `none` or `some 0` here.
-/

/-- A message event as read by `on_message`: sender id, body text, and the
optional server timestamp in milliseconds. -/
structure Message where
  sender : String
  body : String
  server_timestamp : Option Int
deriving DecidableEq

/-- The two pieces of process-wide state from src/main.py lines 60-63:
`BOT_STARTUP_TIME` (milliseconds) and `INITIAL_SYNC_COMPLETE`. -/
structure BotState where
  startup_time : Int
  initial_sync_complete : Bool
deriving DecidableEq

/-- The staleness filter of `on_message` (src/main.py lines 211-232),
in source order: missing/falsy timestamp, pre-startup timestamp, the
5-minute window during initial sync, then the 1-hour fallback window.
Returns `true` when the message survives every check (the handler
continues), `false` when one of the `return` statements fires. -/
def staleAccept (server_timestamp : Option Int) (now startup_time : Int)
    (initial_sync_complete : Bool) : Bool :=
  match server_timestamp with
  | none => false
  | some t =>
    if t = 0 then false
    else if t < startup_time then false
    else if initial_sync_complete = false ∧ now - t > 300000 then false
    else if now - t > 3600000 then false
    else true

/-- The staleness filter with rule 4 (the 1-hour fallback at src/main.py
lines 230-232) removed, used to state the redundancy claim about rule 4
during initial sync. -/
def staleAcceptNoFallback (server_timestamp : Option Int) (now startup_time : Int)
    (initial_sync_complete : Bool) : Bool :=
  match server_timestamp with
  | none => false
  | some t =>
    if t = 0 then false
    else if t < startup_time then false
    else if initial_sync_complete = false ∧ now - t > 300000 then false
    else true

/-- C2: during initial sync (`initial_sync_complete = false`), a message
whose timestamp is at or after startup is accepted exactly when it is at
most 300 seconds old. `0 < startup_time` holds at runtime because
`BOT_STARTUP_TIME` is captured from the wall clock at process start. -/
theorem c2_initial_sync_window (t now startup_time : Int)
    (hstartup : 0 < startup_time) (ht : startup_time ≤ t) :
    staleAccept (some t) now startup_time false = true ↔ now - t ≤ 300000 := by
  have ht0 : t ≠ 0 := by omega
  have hlt : ¬ t < startup_time := by omega
  show (if t = 0 then false
        else if t < startup_time then false
        else if (false : Bool) = false ∧ now - t > 300000 then false
        else if now - t > 3600000 then false
        else true) = true ↔ now - t ≤ 300000
  rw [if_neg ht0, if_neg hlt]
  by_cases h3 : now - t > 300000
  · rw [if_pos ⟨rfl, h3⟩]
    exact iff_of_false (by simp) (by omega)
  · rw [if_neg (fun hc => h3 hc.2)]
    rw [if_neg (show ¬ now - t > 3600000 by omega)]
    exact iff_of_true rfl (by omega)

/-- Witness for `c2_initial_sync_window` at startup 1000, timestamp 2000,
now 300500: the message is 298.5 seconds old and is accepted. -/
theorem c2_initial_sync_window_witness :
    staleAccept (some 2000) 300500 1000 false = true ↔ (300500 : Int) - 2000 ≤ 300000 :=
  c2_initial_sync_window 2000 300500 1000 (by decide) (by decide)

/-- C3: after initial sync (`initial_sync_complete = true`), a message
whose timestamp is at or after startup is accepted exactly when it is at
most 3600 seconds old. `0 < startup_time` holds at runtime because
`BOT_STARTUP_TIME` is captured from the wall clock at process start. -/
theorem c3_steady_state_window (t now startup_time : Int)
    (hstartup : 0 < startup_time) (ht : startup_time ≤ t) :
    staleAccept (some t) now startup_time true = true ↔ now - t ≤ 3600000 := by
  have ht0 : t ≠ 0 := by omega
  have hlt : ¬ t < startup_time := by omega
  show (if t = 0 then false
        else if t < startup_time then false
        else if (true : Bool) = false ∧ now - t > 300000 then false
        else if now - t > 3600000 then false
        else true) = true ↔ now - t ≤ 3600000
  rw [if_neg ht0, if_neg hlt]
  rw [if_neg (fun hc => Bool.noConfusion hc.1)]
  by_cases h4 : now - t > 3600000
  · rw [if_pos h4]
    exact iff_of_false (by simp) (by omega)
  · rw [if_neg h4]
    exact iff_of_true rfl (by omega)

/-- Witness for `c3_steady_state_window` at startup 1000, timestamp 2000,
now 3600000: the message is just under an hour old and is accepted. -/
theorem c3_steady_state_window_witness :
    staleAccept (some 2000) 3600000 1000 true = true ↔ (3600000 : Int) - 2000 ≤ 3600000 :=
  c3_steady_state_window 2000 3600000 1000 (by decide) (by decide)

/-- C4: a missing timestamp (`none`) or a Python-falsy timestamp (`some 0`)
is always discarded, whatever the current time, the startup time, and the
sync flag. -/
theorem c4_missing_timestamp_discards (now startup_time : Int)
    (initial_sync_complete : Bool) :
    staleAccept none now startup_time initial_sync_complete = false ∧
    staleAccept (some 0) now startup_time initial_sync_complete = false := by
  constructor
  · rfl
  · simp [staleAccept]

/-- C5: a present timestamp strictly before startup is always discarded,
whatever the sync flag and the message age. (A timestamp of 0 below a
positive startup time is also discarded, by the falsy check.) -/
theorem c5_pre_startup_discards (t now startup_time : Int)
    (initial_sync_complete : Bool) (h : t < startup_time) :
    staleAccept (some t) now startup_time initial_sync_complete = false := by
  by_cases ht0 : t = 0
  · simp [staleAccept, ht0]
  · simp [staleAccept, ht0, h]

/-- Witness for `c5_pre_startup_discards`: a message stamped 500 ms before
a startup at 1000 ms is discarded even though it is fresh. -/
theorem c5_pre_startup_discards_witness :
    staleAccept (some 500) 1200 1000 true = false :=
  c5_pre_startup_discards 500 1200 1000 true (by decide)

/-- C9: during initial sync, the filter with the 1-hour fallback removed is
extensionally equal to the full filter: once the 5-minute check of rule 3
passes, the 1-hour check of rule 4 can never fire. -/
theorem c9_fallback_redundant_during_sync (server_timestamp : Option Int)
    (now startup_time : Int) :
    staleAccept server_timestamp now startup_time false =
      staleAcceptNoFallback server_timestamp now startup_time false := by
  match server_timestamp with
  | none => rfl
  | some t =>
    by_cases ht0 : t = 0
    · simp [staleAccept, staleAcceptNoFallback, ht0]
    · by_cases hlt : t < startup_time
      · simp [staleAccept, staleAcceptNoFallback, ht0, hlt]
      · by_cases h3 : now - t > 300000
        · simp [staleAccept, staleAcceptNoFallback, ht0, hlt, h3]
        · have h4 : ¬ now - t > 3600000 := by omega
          simp [staleAccept, staleAcceptNoFallback, ht0, hlt, h3, h4]

/-- Python `str.isspace` for the ASCII whitespace characters recognised by
`str.split()`: space, tab, newline, carriage return, vertical tab, form
feed. (Unicode-only whitespace is out of scope for the bodies at hand.) -/
def pyIsSpace (c : Char) : Bool :=
  c = ' ' || c = '\t' || c = '\n' || c = '\r' || c = '\x0b' || c = '\x0c'

/-- Python `str.split()` with no separator: split on runs of whitespace and
drop empty pieces. `acc` holds the characters of the current word in
reverse. -/
def pySplitAux : List Char → List Char → List String
  | [], [] => []
  | [], acc => [String.mk acc.reverse]
  | c :: cs, acc =>
    if pyIsSpace c then
      match acc with
      | [] => pySplitAux cs []
      | _ => String.mk acc.reverse :: pySplitAux cs []
    else pySplitAux cs (c :: acc)

/-- `body.split()` from src/main.py line 282. -/
def tokens (body : String) : List String :=
  pySplitAux body.data []

/-- Python `w.startswith(pre)`, structurally: `pre` is a prefix of `w`. -/
def startsWithModel (w pre : String) : Bool :=
  pre.data.isPrefixOf w.data

/-- `word.startswith(("http://", "https://"))` from src/main.py line 282. -/
def isUrlToken (w : String) : Bool :=
  startsWithModel w "http://" || startsWithModel w "https://"

/-- Line 282: `next((word for word in body.split() if word.startswith(
("http://", "https://"))), None)` — the first whitespace-separated token of
the body carrying an http or https scheme, if any. -/
def extractUrl (body : String) : Option String :=
  (tokens body).find? isUrlToken

/-- Thread metadata attached to an autonomous-chat response: the optional
parent event id stored under the `event_id` key (src/main.py line 258). -/
structure ThreadInfo where
  event_id : Option String
deriving DecidableEq

/-- The two response shapes returned by `autonomous_chat.handle_message`
(src/main.py lines 245-252): the legacy plain-string format, or a dict
carrying a `text` entry and optional `thread_info`. An absent or empty
(falsy) `text` sends nothing. -/
inductive AutoResponse where
  | str (s : String)
  | dict (text : Option String) (thread_info : Option ThreadInfo)
deriving DecidableEq

/-- A send performed by the handler: a threaded reply anchored at a parent
event id (`_send_threaded_message`), or a plain `bot.send_message`. -/
inductive Send where
  | threaded (text : String) (parent : String)
  | regular (text : String)
deriving DecidableEq

/-- Outcome of one call into an external collaborator: a returned value, or
a raised exception. -/
inductive CollabResult (α : Type) where
  | ok (a : α)
  | exn
deriving DecidableEq

/-- The handler environment for one dispatch: the bot's own user id
(`bot_config.USER_ID`) and the behaviour of the external collaborators
during this dispatch: what `handle_message` returns (or that it raises),
what `_send_threaded_message` reports, and whether `process_url` raises. -/
structure Env where
  bot_user_id : String
  auto_result : CollabResult (Option AutoResponse)
  threaded_ok : Bool
  url_result : CollabResult Unit
deriving DecidableEq

/-- Observable outcome of one `on_message` dispatch: whether
`autonomous_chat.handle_message` was invoked, the sends attempted in
order, the URL passed to `process_url` (if any), and whether `process_url`
completed without an exception. -/
structure HandlerResult where
  forwardedAuto : Bool
  sends : List Send
  forwardedUrl : Option String
  urlOk : Option Bool
deriving DecidableEq

/-- A Python `try` / `except Exception` block: run the body; when it raises,
run the handler instead. -/
def pyTryCatch {α : Type} (body : Except String α)
    (handler : String → Except String α) : Except String α :=
  match body with
  | .ok a => .ok a
  | .error e => handler e

/-- `autonomous_chat.handle_message(room, message)` (line 241): returns the
optional response, or raises. -/
def callAutonomousChat (env : Env) : Except String (Option AutoResponse) :=
  match env.auto_result with
  | .ok r => .ok r
  | .exn => .error "autonomous chat raised"

/-- `process_url(url)` (line 296): completes, or raises. -/
def callProcessUrl (env : Env) : Except String Unit :=
  match env.url_result with
  | .ok u => .ok u
  | .exn => .error "process_url raised"

/-- Response delivery, src/main.py lines 245-273: the legacy string shape is
sent as one regular message (when truthy); the dict shape sends its text as
a threaded reply when `thread_info` is present and names a truthy
`event_id`, falling back to one regular send of the same text when the
threaded send reports failure; otherwise the text goes out as one regular
message. Falsy text sends nothing. The list records the sends in the order
they are attempted. -/
def autoSends (resp : AutoResponse) (threaded_ok : Bool) : List Send :=
  match resp with
  | .str s => if s = "" then [] else [Send.regular s]
  | .dict text thread_info =>
    match text with
    | none => []
    | some t =>
      if t = "" then []
      else
        match thread_info with
        | some info =>
          match info.event_id with
          | some eid =>
            if eid = "" then [Send.regular t]
            else if threaded_ok then [Send.threaded t eid]
            else [Send.threaded t eid, Send.regular t]
          | none => [Send.regular t]
        | none => [Send.regular t]

/-- The `on_message` handler (src/main.py lines 169-308) after the logging
preamble: the staleness filter, the self-message guard (line 235), the
autonomous-chat dispatch inside its `try`/`except` (lines 240-279), then
the URL scan with `process_url` inside its own `try`/`except` (lines
282-308). An exception escaping the handler would surface as `.error`. -/
def on_message (env : Env) (st : BotState) (now : Int) (msg : Message) :
    Except String HandlerResult :=
  if staleAccept msg.server_timestamp now st.startup_time st.initial_sync_complete = false then
    .ok { forwardedAuto := false, sends := [], forwardedUrl := none, urlOk := none }
  else if msg.sender = env.bot_user_id then
    .ok { forwardedAuto := false, sends := [], forwardedUrl := none, urlOk := none }
  else
    match pyTryCatch
        (Except.bind (callAutonomousChat env) (fun r =>
          match r with
          | none => Except.ok []
          | some resp => Except.ok (autoSends resp env.threaded_ok)))
        (fun _ => Except.ok []) with
    | .error e => .error e
    | .ok sends =>
      match extractUrl msg.body with
      | none => .ok { forwardedAuto := true, sends := sends, forwardedUrl := none, urlOk := none }
      | some url =>
        match pyTryCatch
            (Except.bind (callProcessUrl env) (fun _ => Except.ok true))
            (fun _ => Except.ok false) with
        | .error e => .error e
        | .ok urlOk =>
          .ok { forwardedAuto := true, sends := sends, forwardedUrl := some url,
                urlOk := some urlOk }

/-- One `auto_poster.run_maintenance_cycle()` call (line 376): completes, or
raises. -/
def runMaintenanceCycle (c : CollabResult Unit) : Except String Unit :=
  match c with
  | .ok u => .ok u
  | .exn => .error "maintenance cycle raised"

/-- The `while True` loop of `arxiv_maintenance_task` (src/main.py lines
374-381), run over a finite schedule of cycle outcomes: each iteration
wraps its cycle in `try`/`except`, then the loop sleeps and continues. The
counter records completed iterations; an exception escaping an iteration
would surface as `.error` and end the loop. -/
def arxiv_maintenance_task : List (CollabResult Unit) → Nat → Except String Nat
  | [], n => .ok n
  | c :: rest, n =>
    match pyTryCatch (runMaintenanceCycle c) (fun _ => Except.ok ()) with
    | .ok _ => arxiv_maintenance_task rest (n + 1)
    | .error e => .error e

/-- Evaluation of `on_message` on an accepted, non-self message: the
autonomous-chat collaborator is always invoked, the delivery sends come
from `autoSends`, and the URL scan forwards `extractUrl` of the body to
`process_url` whenever it yields a token. -/
theorem on_message_accepted (env : Env) (st : BotState) (now : Int) (msg : Message)
    (haccept : staleAccept msg.server_timestamp now st.startup_time st.initial_sync_complete = true)
    (hself : msg.sender ≠ env.bot_user_id) :
    on_message env st now msg = Except.ok
      { forwardedAuto := true,
        sends :=
          match env.auto_result with
          | CollabResult.exn => []
          | CollabResult.ok none => []
          | CollabResult.ok (some resp) => autoSends resp env.threaded_ok,
        forwardedUrl := extractUrl msg.body,
        urlOk :=
          match extractUrl msg.body, env.url_result with
          | none, _ => none
          | some _, CollabResult.ok _ => some true
          | some _, CollabResult.exn => some false } := by
  have h1 : ¬ staleAccept msg.server_timestamp now st.startup_time st.initial_sync_complete = false := by
    rw [haccept]; exact fun hc => Bool.noConfusion hc
  unfold on_message
  rw [if_neg h1, if_neg hself]
  simp only [callAutonomousChat, callProcessUrl]
  cases har : env.auto_result with
  | ok r =>
    cases r with
    | none =>
      cases hurl : extractUrl msg.body with
      | none => rfl
      | some url =>
        cases hur : env.url_result with
        | ok u => rfl
        | exn => rfl
    | some resp =>
      cases hurl : extractUrl msg.body with
      | none => rfl
      | some url =>
        cases hur : env.url_result with
        | ok u => rfl
        | exn => rfl
  | exn =>
    cases hurl : extractUrl msg.body with
    | none => rfl
    | some url =>
      cases hur : env.url_result with
      | ok u => rfl
      | exn => rfl

/-- The maintenance loop completes every scheduled iteration, whatever the
cycle outcomes, adding the schedule length to its counter. -/
theorem arxiv_maintenance_task_ok (cycles : List (CollabResult Unit)) :
    ∀ n : Nat, arxiv_maintenance_task cycles n = Except.ok (n + cycles.length) := by
  induction cycles with
  | nil => intro n; simp [arxiv_maintenance_task]
  | cons c rest ih =>
    intro n
    have hstep : arxiv_maintenance_task (c :: rest) n = arxiv_maintenance_task rest (n + 1) := by
      cases c with
      | ok u => rfl
      | exn => rfl
    rw [hstep, ih (n + 1)]
    simp only [List.length_cons]
    congr 1
    omega

/-- C1 counterexample: a fresh, non-self message whose body carries a URL is
forwarded to BOTH collaborators in the same dispatch — `handle_message` is
invoked (`forwardedAuto = true`) and `process_url` is invoked with the URL
(`forwardedUrl = some _`) — refuting "exactly one of the two". -/
theorem c1_counterexample_both_collaborators :
    on_message
      { bot_user_id := "@bot:server", auto_result := .ok none, threaded_ok := true,
        url_result := .ok () }
      { startup_time := 500000, initial_sync_complete := true }
      1000000
      { sender := "@alice:server", body := "hello https://example.com",
        server_timestamp := some 1000000 } =
    .ok { forwardedAuto := true, sends := [], forwardedUrl := some "https://example.com",
          urlOk := some true } := rfl

/-- C1 (amended): for every accepted non-self message the handler always
forwards to the autonomous-chat collaborator, and additionally forwards to
the URL-processing collaborator exactly when the body contains an
http(s)-scheme token — a message with such a token reaches both
collaborators in the same dispatch. -/
theorem c1_amended_dispatch (env : Env) (st : BotState) (now : Int) (msg : Message)
    (haccept : staleAccept msg.server_timestamp now st.startup_time st.initial_sync_complete = true)
    (hself : msg.sender ≠ env.bot_user_id) :
    ∃ r, on_message env st now msg = Except.ok r ∧ r.forwardedAuto = true ∧
      r.forwardedUrl = extractUrl msg.body :=
  ⟨_, on_message_accepted env st now msg haccept hself, rfl, rfl⟩

/-- Witness for `c1_amended_dispatch` on a concrete fresh message carrying a
URL. -/
theorem c1_amended_dispatch_witness :
    ∃ r, on_message
        { bot_user_id := "@bot:server", auto_result := .ok none, threaded_ok := true,
          url_result := .ok () }
        { startup_time := 500000, initial_sync_complete := true }
        1500000
        { sender := "@carol:server", body := "read https://example.org/a now",
          server_timestamp := some 1400000 } = Except.ok r ∧
      r.forwardedAuto = true ∧
      r.forwardedUrl = extractUrl "read https://example.org/a now" :=
  c1_amended_dispatch _ _ _ _ (by decide) (by decide)

/-- C6: the URL handed to `process_url` is the first whitespace-separated
token of the body starting with http:// or https:// — whenever extraction
yields a token it is scheme-prefixed and every earlier token is not; when
it yields nothing, no token of the body is scheme-prefixed — and on the
spec scenarios: the sample body extracts exactly
"https://example.com/paper", and a body with no such token extracts
nothing. -/
theorem c6_first_url_token :
    (∀ body u, extractUrl body = some u →
      isUrlToken u = true ∧
      ∃ l1 l2, tokens body = l1 ++ u :: l2 ∧ ∀ w ∈ l1, isUrlToken w = false) ∧
    (∀ body, extractUrl body = none → ∀ w ∈ tokens body, isUrlToken w = false) ∧
    extractUrl "check this out https://example.com/paper thanks" =
      some "https://example.com/paper" ∧
    extractUrl "check this out no links here thanks" = none := by
  refine ⟨?_, ?_, by decide, by decide⟩
  · intro body u h
    rw [extractUrl, List.find?_eq_some] at h
    obtain ⟨hp, as1, bs1, heq, hall⟩ := h
    refine ⟨hp, as1, bs1, heq, ?_⟩
    intro w hw
    simpa using hall w hw
  · intro body h
    rw [extractUrl, List.find?_eq_none] at h
    intro w hw
    simpa using h w hw

/-- Witness for `c6_first_url_token` on the spec scenario body. -/
theorem c6_first_url_token_witness :
    isUrlToken "https://example.com/paper" = true ∧
    ∃ l1 l2, tokens "check this out https://example.com/paper thanks" =
        l1 ++ "https://example.com/paper" :: l2 ∧ ∀ w ∈ l1, isUrlToken w = false :=
  c6_first_url_token.1 "check this out https://example.com/paper thanks"
    "https://example.com/paper" (by decide)

/-- C7: a dict response with truthy text and thread metadata naming a truthy
parent event id attempts one threaded send; when that send reports failure
the same text goes out again exactly once as a regular (non-threaded)
send, and when it reports success no regular send occurs. -/
theorem c7_threaded_send_fallback (t eid : String) (threaded_ok : Bool)
    (htext : t ≠ "") (heid : eid ≠ "") :
    autoSends (AutoResponse.dict (some t) (some { event_id := some eid })) threaded_ok =
      if threaded_ok then [Send.threaded t eid]
      else [Send.threaded t eid, Send.regular t] := by
  show (if t = "" then []
        else if eid = "" then [Send.regular t]
        else if threaded_ok then [Send.threaded t eid]
        else [Send.threaded t eid, Send.regular t]) = _
  rw [if_neg htext, if_neg heid]

/-- Witness for `c7_threaded_send_fallback`: a failing threaded send of
"hi there" anchored at "$ev1" is followed by exactly one regular resend. -/
theorem c7_threaded_send_fallback_witness :
    autoSends (AutoResponse.dict (some "hi there") (some { event_id := some "$ev1" })) false =
      if false then [Send.threaded "hi there" "$ev1"]
      else [Send.threaded "hi there" "$ev1", Send.regular "hi there"] :=
  c7_threaded_send_fallback "hi there" "$ev1" false (by decide) (by decide)

/-- C8: no collaborator exception escapes — `on_message` never surfaces an
error, whatever `handle_message` and `process_url` do, and the maintenance
loop completes all of its scheduled iterations even when every cycle
raises. -/
theorem c8_exceptions_swallowed (env : Env) (st : BotState) (now : Int) (msg : Message)
    (cycles : List (CollabResult Unit)) :
    (∃ r, on_message env st now msg = Except.ok r) ∧
    arxiv_maintenance_task cycles 0 = Except.ok cycles.length := by
  constructor
  · by_cases h1 : staleAccept msg.server_timestamp now st.startup_time st.initial_sync_complete = false
    · refine ⟨{ forwardedAuto := false, sends := [], forwardedUrl := none, urlOk := none }, ?_⟩
      unfold on_message
      rw [if_pos h1]
    · by_cases h2 : msg.sender = env.bot_user_id
      · refine ⟨{ forwardedAuto := false, sends := [], forwardedUrl := none, urlOk := none }, ?_⟩
        unfold on_message
        rw [if_neg h1, if_pos h2]
      · have haccept : staleAccept msg.server_timestamp now st.startup_time
            st.initial_sync_complete = true := by
          cases hsa : staleAccept msg.server_timestamp now st.startup_time
              st.initial_sync_complete with
          | false => exact absurd hsa h1
          | true => rfl
        exact ⟨_, on_message_accepted env st now msg haccept h2⟩
  · simpa using arxiv_maintenance_task_ok cycles 0

/-- C10: a message sent by the bot itself is dropped before the URL scan:
the dispatch performs no forwarding at all — in particular `process_url`
is never invoked, even for a fresh message whose body carries a URL. -/
theorem c10_self_message_skips_url (env : Env) (st : BotState) (now : Int) (msg : Message)
    (hself : msg.sender = env.bot_user_id) :
    on_message env st now msg =
      Except.ok { forwardedAuto := false, sends := [], forwardedUrl := none, urlOk := none } := by
  unfold on_message
  by_cases h1 : staleAccept msg.server_timestamp now st.startup_time st.initial_sync_complete = false
  · rw [if_pos h1]
  · rw [if_neg h1, if_pos hself]

/-- Witness for `c10_self_message_skips_url`: a fresh self-sent message
containing a URL forwards nothing. -/
theorem c10_self_message_skips_url_witness :
    on_message
      { bot_user_id := "@bot:server", auto_result := .ok none, threaded_ok := true,
        url_result := .ok () }
      { startup_time := 500000, initial_sync_complete := true }
      1000000
      { sender := "@bot:server", body := "see https://example.com/self",
        server_timestamp := some 1000000 } =
    Except.ok { forwardedAuto := false, sends := [], forwardedUrl := none, urlOk := none } :=
  c10_self_message_skips_url _ _ _ _ (by decide)
